import Mathlib

/-!
A shallow embedding of the peer-to-peer node implemented in `eachare.py`:
its logical clock, inbound message decoding and handling, peer registry
updates, the outbound send loop with retries, and the base64 file-transfer
codec, together with theorems checking the specification's claims
against the embedded code.
-/

namespace Eachare

/-! ### Python string primitives

`pyStrip`, `pySplit`, `pySplitOnColon` and `pyInt` model the Python
operations `str.strip()`, `str.split()` (no argument), `str.split(":")`
and `int(...)` as they are used on protocol tokens in `eachare.py`
(ASCII whitespace; `int` applied to whitespace-free tokens, accepting an
optional sign, decimal digits and single internal underscores). -/

def isPySpace (c : Char) : Bool :=
  c == ' ' || c == '\t' || c == '\n' || c == '\r' || c == '\x0b' || c == '\x0c'

def pyStrip (s : String) : String :=
  String.mk (((s.toList.dropWhile isPySpace).reverse.dropWhile isPySpace).reverse)

def pySplitGo : List Char → List Char → List String
  | [], cur => if cur.isEmpty then [] else [String.mk cur.reverse]
  | c :: rest, cur =>
    if isPySpace c then
      if cur.isEmpty then pySplitGo rest [] else String.mk cur.reverse :: pySplitGo rest []
    else pySplitGo rest (c :: cur)

def pySplit (s : String) : List String := pySplitGo s.toList []

def pySplitColonGo : List Char → List Char → List String
  | [], cur => [String.mk cur.reverse]
  | c :: rest, cur =>
    if c == ':' then String.mk cur.reverse :: pySplitColonGo rest []
    else pySplitColonGo rest (c :: cur)

def pySplitOnColon (s : String) : List String := pySplitColonGo s.toList []

def digitVal (c : Char) : Option Nat :=
  if '0' ≤ c ∧ c ≤ '9' then some (c.toNat - 48) else none

def pyIntDigitsGo : Nat → List Char → Option Nat
  | acc, [] => some acc
  | acc, c :: rest =>
    match digitVal c with
    | some d => pyIntDigitsGo (acc * 10 + d) rest
    | none =>
      if c == '_' then
        match rest with
        | r :: rest' =>
          match digitVal r with
          | some d => pyIntDigitsGo (acc * 10 + d) rest'
          | none => none
        | [] => none
      else none

def pyIntDigits : List Char → Option Nat
  | [] => none
  | c :: rest =>
    match digitVal c with
    | some d => pyIntDigitsGo d rest
    | none => none

def pyInt (s : String) : Option Int :=
  match s.toList with
  | '-' :: rest => (pyIntDigits rest).map (fun n => -(n : Int))
  | '+' :: rest => (pyIntDigits rest).map (fun n => (n : Int))
  | l => (pyIntDigits l).map (fun n => (n : Int))

/-- Python's `" ".join(...)`. -/
def joinSp : List String → String
  | [] => ""
  | [s] => s
  | s :: rest => s ++ " " ++ joinSp rest

/-! ### Base64 codec

Models Python's `base64.b64encode` and `base64.b64decode` (library
functions called by `eachare.py`; default non-validating mode: characters
outside the alphabet and padding are discarded, then the remaining data
must form complete four-character groups with padding only in the final
group; a leftover group of a single character is a `binascii.Error`, a
subclass of `ValueError`, modelled as `none`). -/

def b64EncChar (n : Nat) : Char :=
  if n < 26 then Char.ofNat (65 + n)
  else if n < 52 then Char.ofNat (97 + (n - 26))
  else if n < 62 then Char.ofNat (48 + (n - 52))
  else if n == 62 then '+' else '/'

def b64DecChar (c : Char) : Option Nat :=
  if 65 ≤ c.toNat ∧ c.toNat ≤ 90 then some (c.toNat - 65)
  else if 97 ≤ c.toNat ∧ c.toNat ≤ 122 then some (c.toNat - 71)
  else if 48 ≤ c.toNat ∧ c.toNat ≤ 57 then some (c.toNat + 4)
  else if c == '+' then some 62
  else if c == '/' then some 63
  else none

def b64EncodeList : List Nat → List Char
  | [] => []
  | [a] => [b64EncChar (a / 4), b64EncChar (a % 4 * 16), '=', '=']
  | [a, b] => [b64EncChar (a / 4), b64EncChar (a % 4 * 16 + b / 16), b64EncChar (b % 16 * 4), '=']
  | a :: b :: c :: rest =>
    b64EncChar (a / 4) :: b64EncChar (a % 4 * 16 + b / 16) ::
      b64EncChar (b % 16 * 4 + c / 64) :: b64EncChar (c % 64) :: b64EncodeList rest

def b64encode (bs : List Nat) : String := String.mk (b64EncodeList bs)

def b64DecodeGroups : List Char → Option (List Nat)
  | [] => some []
  | x :: y :: z :: w :: rest =>
    match b64DecChar x, b64DecChar y with
    | some dx, some dy =>
      if z == '=' && w == '=' && rest.isEmpty then
        some [dx * 4 + dy / 16]
      else
        match b64DecChar z with
        | some dz =>
          if w == '=' && rest.isEmpty then
            some [dx * 4 + dy / 16, dy % 16 * 16 + dz / 4]
          else
            match b64DecChar w with
            | some dw => (b64DecodeGroups rest).map
                (fun bs => (dx * 4 + dy / 16) :: (dy % 16 * 16 + dz / 4) :: (dz % 4 * 64 + dw) :: bs)
            | none => none
        | none => none
    | _, _ => none
  | _ => none

def b64decode (s : String) : Option (List Nat) :=
  b64DecodeGroups (s.toList.filter (fun c => (b64DecChar c).isSome || c == '='))

/-! ### Data model

The mutable state of a node: its identity `server_id` (set once at
startup), the shared `global_clock`, and the `peers` dictionary mapping
a peer identity to its record `{status, clock}`.  Python dictionaries
preserve insertion order: `dictSet` updates in place or appends, and
`dictGet` models `peers[k]` and the `k in peers` test.  Registry-changing
prints are modelled as `LogEvent`s. -/

structure PeerRecord where
  status : String
  clock : Int
deriving DecidableEq, Repr

structure NodeState where
  server_id : String
  global_clock : Int
  peers : List (String × PeerRecord)
deriving DecidableEq, Repr

inductive LogEvent where
  /-- the HELLO handler's unconditional print
  "Atualizando peer {origem} status ONLINE e relogio para {msg_clock}" -/
  | helloUpdate (pid : String) (clk : Int)
  /-- the guarded "Atualizando peer {pid} status {status}" prints -/
  | statusChange (pid : String) (status : String)
deriving DecidableEq, Repr

def dictGet {α : Type} (m : List (String × α)) (k : String) : Option α :=
  match m with
  | [] => none
  | (k', v) :: rest => if k' = k then some v else dictGet rest k

def dictSet {α : Type} (m : List (String × α)) (k : String) (v : α) : List (String × α) :=
  match m with
  | [] => [(k, v)]
  | (k', v') :: rest => if k' = k then (k, v) :: rest else (k', v') :: dictSet rest k v

/-- `update_clock()` of `eachare.py`: increment the clock and return the
new value.  (The model threads the clock explicitly; the returned value
is the incremented clock.) -/
def update_clock (c : Int) : Int := c + 1

/-- The receive-side Lamport update at lines 96-100 of `eachare.py`:
`global_clock = max(global_clock, msg_clock) + 1`. -/
def observe (l r : Int) : Int := max l r + 1

/-! ### Inbound message handling (`handle_client`)

`decodeHeader` models lines 82-94: strip the received data, split it
into whitespace-separated parts, require at least three parts, and parse
the clock with `int(...)`; any failure (including the `ValueError` from
`int`, caught by the handler's outer `try`) yields no state change and
no reply.  `dispatch` models the type dispatch on lines 102-157 after
the clock has been advanced.  The shared directory is modelled as an
association list from filename to file bytes; replies assume the socket
write succeeds (a failed `sendall` only logs).  Totality of
`handle_client` models the outer `try/except` of lines 82-164: every
input yields a normal return, the connection is closed, and the server
keeps accepting. -/

structure HandleResult where
  state : NodeState
  reply : Option String
  logs : List LogEvent
deriving DecidableEq, Repr

def decodeHeader (data : String) : Option (String × Int × String × List String) :=
  match pySplit (pyStrip data) with
  | origem :: clkStr :: msgType :: args =>
    (pyInt clkStr).map (fun c => (origem, c, msgType, args))
  | _ => none

/-- One registry entry formatted as `"{peer}:{status}:{clock}"`
(line 113 of `eachare.py`). -/
def peerEntryStr (p : String × PeerRecord) : String :=
  p.1 ++ ":" ++ p.2.status ++ ":" ++ toString p.2.clock

/-- The GET_PEERS reply of lines 112-119: `PEER_LIST` over every known
peer except the sender, stamped with `update_clock()`. -/
def peerListReply (sid : String) (clk : Int) (lista : List String) : String :=
  sid ++ " " ++ toString clk ++ " PEER_LIST " ++ toString lista.length ++
    (if 0 < lista.length then " " ++ joinSp lista else "") ++ "\n"

/-- The LS reply of lines 134-142: `LS_LIST` over the shared directory. -/
def lsListReply (sid : String) (clk : Int) (files_info : List String) : String :=
  sid ++ " " ++ toString clk ++ " LS_LIST " ++ toString files_info.length ++
    (if 0 < files_info.length then " " ++ joinSp files_info else "") ++ "\n"

/-- The DL reply of line 154: `FILE {nome} 0 0 {base64 content}`. -/
def dlFileReply (sid : String) (clk : Int) (nome : String) (content : List Nat) : String :=
  sid ++ " " ++ toString clk ++ " FILE " ++ nome ++ " 0 0 " ++ b64encode content ++ "\n"

def dispatch (st : NodeState) (sharedDir : List (String × List Nat))
    (origem : String) (msg_clock : Int) (msgType : String) (args : List String) :
    HandleResult :=
  if msgType = "HELLO" then
    match dictGet st.peers origem with
    | none =>
      ⟨{ st with peers := dictSet st.peers origem ⟨"ONLINE", msg_clock⟩ }, none,
        [.helloUpdate origem msg_clock]⟩
    | some rec =>
      if rec.status ≠ "ONLINE" then
        ⟨{ st with peers := dictSet st.peers origem ⟨"ONLINE", msg_clock⟩ }, none,
          [.helloUpdate origem msg_clock]⟩
      else
        ⟨{ st with peers := dictSet st.peers origem { rec with clock := msg_clock } }, none,
          [.helloUpdate origem msg_clock]⟩
  else if msgType = "GET_PEERS" then
    let lista := (st.peers.filter (fun p => p.1 ≠ origem)).map peerEntryStr
    let clk := update_clock st.global_clock
    ⟨{ st with global_clock := clk }, some (peerListReply st.server_id clk lista), []⟩
  else if msgType = "BYE" then
    match dictGet st.peers origem with
    | some rec =>
      if rec.status ≠ "OFFLINE" then
        ⟨{ st with peers := dictSet st.peers origem ⟨"OFFLINE", rec.clock⟩ }, none,
          [.statusChange origem "OFFLINE"]⟩
      else ⟨st, none, []⟩
    | none => ⟨st, none, []⟩
  else if msgType = "LS" then
    let files_info := sharedDir.map (fun f => f.1 ++ ":" ++ toString f.2.length)
    let clk := update_clock st.global_clock
    ⟨{ st with global_clock := clk }, some (lsListReply st.server_id clk files_info), []⟩
  else if msgType = "DL" then
    match args with
    | nome :: _ =>
      match dictGet sharedDir nome with
      | some content =>
        let clk := update_clock st.global_clock
        ⟨{ st with global_clock := clk }, some (dlFileReply st.server_id clk nome content), []⟩
      | none => ⟨st, none, []⟩
    | [] => ⟨st, none, []⟩
  else ⟨st, none, []⟩

def handle_client (st : NodeState) (sharedDir : List (String × List Nat))
    (data : String) : HandleResult :=
  match decodeHeader data with
  | none => ⟨st, none, []⟩
  | some (origem, msg_clock, msgType, args) =>
    dispatch { st with global_clock := observe st.global_clock msg_clock }
      sharedDir origem msg_clock msgType args

/-! ### Outbound messenger (`send_message`)

Lines 34-76 of `eachare.py`.  The network environment is an oracle: one
`AttemptOutcome` per loop iteration, saying where (if anywhere) that
attempt's socket operations raise.  `ok r` is a fully successful attempt
whose `recv` returns `r`; `refused` is `ConnectionRefusedError` at
`connect` (return `None` at once); `timeoutAtConnect` and
`failAtConnect` are a `socket.timeout`, respectively any other
exception, raised before `connect` returns (no clock tick, retried);
`timeoutAfterSend` is a `recv` timeout after the tick and the full write;
`failDuringSend` is any other exception after the tick but before the
write completes.  The result records the Python return value, the number
of connection attempts made, and the trace of clock ticks and completed
message writes (for the clock-accounting claims). -/

inductive AttemptOutcome where
  | refused
  | timeoutAtConnect
  | failAtConnect
  | timeoutAfterSend
  | failDuringSend
  | ok (reply : String)
deriving DecidableEq, Repr

/-- The Python return value of `send_message`: a reply string (from
`expect_reply=True`), `True` (sent, no reply wanted), or `None`. -/
inductive SendRet where
  | reply (s : String)
  | sent
  | fail
deriving DecidableEq, Repr

inductive Event where
  | tick
  | msgSent
deriving DecidableEq, Repr

def sendGo (expect_reply : Bool) :
    List AttemptOutcome → Nat → List Event → SendRet × Nat × List Event
  | [], n, evs => (.fail, n, evs)
  | o :: rest, n, evs =>
    match o with
    | .ok r => ((if expect_reply then .reply r else .sent), n + 1, evs ++ [.tick, .msgSent])
    | .refused => (.fail, n + 1, evs)
    | .timeoutAtConnect => sendGo expect_reply rest (n + 1) evs
    | .failAtConnect => sendGo expect_reply rest (n + 1) evs
    | .timeoutAfterSend => sendGo expect_reply rest (n + 1) (evs ++ [.tick, .msgSent])
    | .failDuringSend => sendGo expect_reply rest (n + 1) (evs ++ [.tick])

/-- `send_message` with `max_retries` equal to the length of the oracle
list (the `for attempt in range(max_retries)` budget). -/
def send_message (outcomes : List AttemptOutcome) (expect_reply : Bool) :
    SendRet × Nat × List Event :=
  sendGo expect_reply outcomes 0 []

/-- One iteration of the `command_get_peers` loop, send side (lines
371-374): `update_clock()` is called for an unused stamp, then
`send_message` is called and ticks again when it connects. -/
def getPeersSendPhase (outcomes : List AttemptOutcome) : SendRet × Nat × List Event :=
  let r := send_message outcomes true
  (r.1, r.2.1, Event.tick :: r.2.2)

/-! ### Registry updates from gossip and from the neighbor file -/

/-- The merge of one already-parsed gossip entry, lines 397-404 of
`eachare.py`: insert if absent; overwrite both fields if the stored
`(status, clock)` pair differs; otherwise leave the dictionary alone. -/
def merge (peers : List (String × PeerRecord)) (pid status : String) (clock : Int) :
    List (String × PeerRecord) :=
  match dictGet peers pid with
  | some rec =>
    if rec.status ≠ status ∨ rec.clock ≠ clock then dictSet peers pid ⟨status, clock⟩
    else peers
  | none => dictSet peers pid ⟨status, clock⟩

/-- Ingesting one `PEER_LIST` entry string, lines 386-406: split on `:`;
a missing fourth field (`IndexError`) or a non-integer clock
(`ValueError`) is caught by the per-entry `except` and skips the entry;
an entry naming this node (`peer_id == server_id`) is skipped; otherwise
the entry is merged. -/
def ingestPeerInfo (sid : String) (peers : List (String × PeerRecord))
    (peer_info : String) : List (String × PeerRecord) :=
  match pySplitOnColon peer_info with
  | p0 :: p1 :: status :: cl :: _ =>
    match pyInt cl with
    | some clock =>
      if p0 ++ ":" ++ p1 = sid then peers else merge peers (p0 ++ ":" ++ p1) status clock
    | none => peers
  | _ => peers

/-- One line of the neighbor file, lines 298-305 of `eachare.py`:
stripped; skipped when empty or equal to `server_id`; otherwise added
with status OFFLINE and clock 0 when not already present. -/
def loadNeighborLine (sid : String) (peers : List (String × PeerRecord))
    (rawLine : String) : List (String × PeerRecord) :=
  if pyStrip rawLine ≠ "" ∧ pyStrip rawLine ≠ sid then
    match dictGet peers (pyStrip rawLine) with
    | none => dictSet peers (pyStrip rawLine) ⟨"OFFLINE", 0⟩
    | some _ => peers
  else peers

/-- The registry-inserting operations quantified over by the no-self-peer
invariant: a gossip entry ingested by `command_get_peers`, or a neighbor
file line loaded by `load_neighbors`. -/
inductive RegOp where
  | gossip (peer_info : String)
  | neighborLine (line : String)
deriving DecidableEq, Repr

def applyRegOp (sid : String) (peers : List (String × PeerRecord)) :
    RegOp → List (String × PeerRecord)
  | .gossip info => ingestPeerInfo sid peers info
  | .neighborLine line => loadNeighborLine sid peers line

/-! ### Reply processing in the fan-out commands

`command_get_peers` (lines 376-421) and `command_search_files` (lines
182-208) both test the value returned by `send_message` with
`if reply:` — Python truthiness, under which both `None` (every attempt
failed) and the empty string (the peer accepted, then closed without
sending) take the failure branch.  When `send_message` would return
`True` (never the case with `expect_reply=True`), `reply.strip()` would
raise `AttributeError`, caught by the surrounding `except`, leaving the
state unchanged.  `markOfflineStep`/`markOnlineStep` model the guarded
status writes; Python would raise `KeyError` if the contacted peer were
missing from the registry, but the registry never deletes keys, so that
path is unreachable and modelled as a no-op. -/

def markOfflineStep (st : NodeState) (peer_addr : String) : NodeState × List LogEvent :=
  match dictGet st.peers peer_addr with
  | some rec =>
    if rec.status ≠ "OFFLINE" then
      ({ st with peers := dictSet st.peers peer_addr ⟨"OFFLINE", rec.clock⟩ },
        [.statusChange peer_addr "OFFLINE"])
    else (st, [])
  | none => (st, [])

def markOnlineStep (st : NodeState) (peer_addr : String) : NodeState × List LogEvent :=
  match dictGet st.peers peer_addr with
  | some rec =>
    if rec.status ≠ "ONLINE" then
      ({ st with peers := dictSet st.peers peer_addr ⟨"ONLINE", rec.clock⟩ },
        [.statusChange peer_addr "ONLINE"])
    else (st, [])
  | none => (st, [])

/-- Parsing and merging a `PEER_LIST` reply, lines 378-412: a reply with
fewer than four parts or the wrong type token prints "Resposta
inválida"; a non-integer count aborts the `try` before any merge;
otherwise `parts[4:4+total]` (for positive `total`) is ingested entry by
entry and the responder is marked ONLINE. -/
def processPeerListReply (st : NodeState) (peer_addr : String) (s : String) :
    NodeState × List LogEvent :=
  match pySplit (pyStrip s) with
  | _ :: _ :: p2 :: p3 :: rest =>
    if p2 = "PEER_LIST" then
      match pyInt p3 with
      | some total =>
        let new_peers := if 0 < total then rest.take total.toNat else []
        let peers' := new_peers.foldl (fun ps info => ingestPeerInfo st.server_id ps info) st.peers
        markOnlineStep { st with peers := peers' } peer_addr
      | none => (st, [])
    else (st, [])
  | _ => (st, [])

/-- Handling the value `send_message` returned for one peer in
`command_get_peers` (lines 376-421). -/
def getPeersHandleReply (st : NodeState) (peer_addr : String) (r : SendRet) :
    NodeState × List LogEvent :=
  match r with
  | .reply s => if s = "" then markOfflineStep st peer_addr else processPeerListReply st peer_addr s
  | .sent => (st, [])
  | .fail => markOfflineStep st peer_addr

/-- The entry loop of lines 191-193: `nome, tamanho =
arquivo_info.split(":")` raises unless the split has exactly two parts,
and `int(tamanho)` may raise; either exception aborts the `try`, keeping
the entries appended so far and skipping the ONLINE marking (the `Bool`
is false in that case). -/
def parseLsEntries (peer_addr : String) :
    List String → List (String × Int × String) × Bool
  | [] => ([], true)
  | info :: rest =>
    match pySplitOnColon info with
    | [nome, tamanho] =>
      match pyInt tamanho with
      | some t =>
        let r := parseLsEntries peer_addr rest
        ((nome, t, peer_addr) :: r.1, r.2)
      | none => ([], false)
    | _ => ([], false)

/-- Parsing an `LS_LIST` reply and aggregating its entries, lines
184-203. -/
def processLsReply (st : NodeState) (acc : List (String × Int × String))
    (peer_addr : String) (s : String) :
    NodeState × List (String × Int × String) × List LogEvent :=
  match pySplit (pyStrip s) with
  | _ :: _ :: p2 :: p3 :: rest =>
    if p2 = "LS_LIST" then
      match pyInt p3 with
      | some total =>
        let arquivos := if 0 < total then rest.take total.toNat else []
        let r := parseLsEntries peer_addr arquivos
        if r.2 then
          let m := markOnlineStep st peer_addr
          (m.1, acc ++ r.1, m.2)
        else (st, acc ++ r.1, [])
      | none => (st, acc, [])
    else (st, acc, [])
  | _ => (st, acc, [])

/-- Handling the value `send_message` returned for one peer in the LS
fan-out of `command_search_files` (lines 182-208). -/
def searchFilesHandleReply (st : NodeState) (acc : List (String × Int × String))
    (peer_addr : String) (r : SendRet) :
    NodeState × List (String × Int × String) × List LogEvent :=
  match r with
  | .reply s =>
    if s = "" then
      let m := markOfflineStep st peer_addr
      (m.1, acc, m.2)
    else processLsReply st acc peer_addr s
  | .sent => (st, acc, [])
  | .fail =>
    let m := markOfflineStep st peer_addr
    (m.1, acc, m.2)

/-- The download path of `command_search_files`, lines 229-249: split the
`DL` reply; require at least six parts with `parts[2] == "FILE"`; take
the filename from `parts[3]` and the supposed base64 content from
`parts[5]`; decode and write it unless it is empty or the decode raises
(`binascii.Error`, caught as a `ValueError`).  Returns the
`(filename, bytes)` written to the shared directory, or `none` when
nothing is written. -/
def downloadFromReply (reply : String) : Option (String × List Nat) :=
  match pySplit (pyStrip reply) with
  | _ :: _ :: p2 :: p3 :: _ :: p5 :: _ =>
    if p2 = "FILE" then
      if p5 ≠ "" then
        match b64decode p5 with
        | some conteudo => some (p3, conteudo)
        | none => none
      else none
    else none
  | _ => none

/-- The download step as the wire format intends it (the FILE reply's
base64 payload is the seventh token, after `<origin> <clock> FILE <name>
0 0`): identical to `downloadFromReply` except that the content is taken
from `parts[6]` instead of `parts[5]`.  Used only to locate the defect:
with this indexing the transfer round-trips. -/
def downloadFromReplyIntended (reply : String) : Option (String × List Nat) :=
  match pySplit (pyStrip reply) with
  | _ :: _ :: p2 :: p3 :: _ :: _ :: p6 :: _ =>
    if p2 = "FILE" then
      if p6 ≠ "" then
        match b64decode p6 with
        | some conteudo => some (p3, conteudo)
        | none => none
      else none
    else none
  | _ => none

/-! ### Dictionary lemmas -/

theorem dictGet_dictSet_self {α : Type} (m : List (String × α)) (k : String) (v : α) :
    dictGet (dictSet m k v) k = some v := by
  induction m with
  | nil => simp [dictGet, dictSet]
  | cons p rest ih =>
    obtain ⟨k', v'⟩ := p
    by_cases h : k' = k
    · subst h; simp [dictGet, dictSet]
    · simp [dictGet, dictSet, h, ih]

theorem dictGet_dictSet_ne {α : Type} (m : List (String × α)) (k q : String) (v : α)
    (h : q ≠ k) : dictGet (dictSet m k v) q = dictGet m q := by
  induction m with
  | nil => simp [dictGet, dictSet, Ne.symm h]
  | cons p rest ih =>
    obtain ⟨k', v'⟩ := p
    by_cases hk : k' = k
    · subst hk
      simp [dictGet, dictSet, Ne.symm h]
    · simp only [dictSet, if_neg hk]
      by_cases hq : k' = q
      · simp [dictGet, hq]
      · simp [dictGet, hq, ih]

theorem dictSet_eq_of_get {α : Type} (m : List (String × α)) (k : String) (v : α)
    (h : dictGet m k = some v) : dictSet m k v = m := by
  induction m with
  | nil => simp [dictGet] at h
  | cons p rest ih =>
    obtain ⟨k', v'⟩ := p
    by_cases hk : k' = k
    · subst hk
      simp [dictGet] at h
      simp [dictSet, h]
    · simp [dictGet, hk] at h
      simp [dictSet, hk, ih h]

/-! ### Base64 round-trip

The codec itself is correct: decoding an encoding returns the original
bytes.  (The defect behind the failed download claim is therefore in the
downloader's field indexing, not in the transfer encoding.) -/

theorem b64DecChar_b64EncChar : ∀ n, n < 64 → b64DecChar (b64EncChar n) = some n := by
  decide

theorem b64EncChar_ne_pad : ∀ n, n < 64 → (b64EncChar n == '=') = false := by
  decide

theorem b64EncChar_keep : ∀ n, n < 64 →
    ((b64DecChar (b64EncChar n)).isSome || (b64EncChar n == '=')) = true := by
  decide

theorem filter_b64EncodeList (bs : List Nat) (h : ∀ b ∈ bs, b < 256) :
    (b64EncodeList bs).filter (fun c => (b64DecChar c).isSome || c == '=') =
      b64EncodeList bs := by
  induction bs using b64EncodeList.induct with
  | case1 => rfl
  | case2 a =>
    have ha : a < 256 := h a (by simp)
    simp [b64EncodeList, List.filter, b64EncChar_keep (a / 4) (by omega),
      b64EncChar_keep (a % 4 * 16) (by omega)]
  | case3 a b =>
    have ha : a < 256 := h a (by simp)
    have hb : b < 256 := h b (by simp)
    simp [b64EncodeList, List.filter, b64EncChar_keep (a / 4) (by omega),
      b64EncChar_keep (a % 4 * 16 + b / 16) (by omega),
      b64EncChar_keep (b % 16 * 4) (by omega)]
  | case4 a b c rest ih =>
    have ha : a < 256 := h a (by simp)
    have hb : b < 256 := h b (by simp)
    have hc : c < 256 := h c (by simp)
    have hrest : ∀ x ∈ rest, x < 256 := fun x hx => h x (by simp [hx])
    simp [b64EncodeList, List.filter, b64EncChar_keep (a / 4) (by omega),
      b64EncChar_keep (a % 4 * 16 + b / 16) (by omega),
      b64EncChar_keep (b % 16 * 4 + c / 64) (by omega),
      b64EncChar_keep (c % 64) (by omega), ih hrest]

theorem b64DecodeGroups_b64EncodeList (bs : List Nat) (h : ∀ b ∈ bs, b < 256) :
    b64DecodeGroups (b64EncodeList bs) = some bs := by
  induction bs using b64EncodeList.induct with
  | case1 => rfl
  | case2 a =>
    have ha : a < 256 := h a (by simp)
    simp only [b64EncodeList, b64DecodeGroups,
      b64DecChar_b64EncChar (a / 4) (by omega),
      b64DecChar_b64EncChar (a % 4 * 16) (by omega)]
    simp only [beq_self_eq_true, Bool.and_self, List.isEmpty_nil, Bool.and_true, if_true]
    simp
    omega
  | case3 a b =>
    have ha : a < 256 := h a (by simp)
    have hb : b < 256 := h b (by simp)
    simp only [b64EncodeList, b64DecodeGroups,
      b64DecChar_b64EncChar (a / 4) (by omega),
      b64DecChar_b64EncChar (a % 4 * 16 + b / 16) (by omega),
      b64DecChar_b64EncChar (b % 16 * 4) (by omega),
      b64EncChar_ne_pad (b % 16 * 4) (by omega)]
    simp only [Bool.false_and, Bool.and_false, Bool.false_eq_true, if_false,
      beq_self_eq_true, List.isEmpty_nil, Bool.and_true, if_true]
    simp
    constructor <;> omega
  | case4 a b c rest ih =>
    have ha : a < 256 := h a (by simp)
    have hb : b < 256 := h b (by simp)
    have hc : c < 256 := h c (by simp)
    have hrest : ∀ x ∈ rest, x < 256 := fun x hx => h x (by simp [hx])
    simp only [b64EncodeList, b64DecodeGroups,
      b64DecChar_b64EncChar (a / 4) (by omega),
      b64DecChar_b64EncChar (a % 4 * 16 + b / 16) (by omega),
      b64DecChar_b64EncChar (b % 16 * 4 + c / 64) (by omega),
      b64DecChar_b64EncChar (c % 64) (by omega),
      b64EncChar_ne_pad (b % 16 * 4 + c / 64) (by omega),
      b64EncChar_ne_pad (c % 64) (by omega), ih hrest]
    simp only [Bool.false_and, Bool.and_false, Bool.false_eq_true, if_false, Option.map_some]
    simp
    refine ⟨by omega, by omega, by omega⟩

theorem b64_roundtrip (bs : List Nat) (h : ∀ b ∈ bs, b < 256) :
    b64decode (b64encode bs) = some bs := by
  show b64DecodeGroups ((b64EncodeList bs).filter _) = some bs
  rw [filter_b64EncodeList bs h]
  exact b64DecodeGroups_b64EncodeList bs h

example : pySplit "  a b:c   dd " = ["a", "b:c", "dd"] := by decide
example : pyStrip " ab \n" = "ab" := by decide
example : pySplitOnColon "1.2.3.4:90:ONLINE:5" = ["1.2.3.4", "90", "ONLINE", "5"] := by decide
example : pyInt "-41" = some (-41) := by decide
example : pyInt "1_2" = some 12 := by decide
example : pyInt "x3" = none := by decide
example : b64encode [104, 105] = "aGk=" := by decide
example : b64decode "aGk=" = some [104, 105] := by decide
example : b64decode "0" = none := by decide
example : b64decode "" = some [] := by decide
example : b64encode [77, 97, 110] = "TWFu" := by decide

example : decodeHeader "1.1.1.1:9 5 HELLO" = some ("1.1.1.1:9", 5, "HELLO", []) := by decide
example : decodeHeader "1.1.1.1:9 x HELLO" = none := by decide
example :
    handle_client ⟨"a:1", 3, []⟩ [] "b:2 7 HELLO" =
      ⟨⟨"a:1", 8, [("b:2", ⟨"ONLINE", 7⟩)]⟩, none, [.helloUpdate "b:2" 7]⟩ := by decide
example :
    (handle_client ⟨"a:1", 3, [("b:2", ⟨"ONLINE", 4⟩)]⟩ [] "b:2 7 GET_PEERS").reply =
      some "a:1 9 PEER_LIST 0\n" := by decide
example :
    (handle_client ⟨"a:1", 0, [("c:3", ⟨"OFFLINE", 4⟩)]⟩ [] "b:2 7 GET_PEERS").reply =
      some "a:1 9 PEER_LIST 1 c:3:OFFLINE:4\n" := by decide
example :
    (handle_client ⟨"a:1", 0, []⟩ [("f.bin", [104, 105])] "b:2 1 DL f.bin 0 0").reply =
      some "a:1 3 FILE f.bin 0 0 aGk=\n" := by decide

example : send_message [.refused, .ok "x"] true = (.fail, 1, []) := by decide
example : send_message [.timeoutAtConnect, .timeoutAfterSend] true =
    (.fail, 2, [.tick, .msgSent]) := by decide
example : send_message [.ok ""] true = (.reply "", 1, [.tick, .msgSent]) := by decide
example : downloadFromReply "a:1 3 FILE f.bin 0 0 aGk=\n" = none := by decide
example : merge [("b:2", ⟨"ONLINE", 1⟩)] "b:2" "OFFLINE" 3 =
    [("b:2", ⟨"OFFLINE", 3⟩)] := by decide
example : ingestPeerInfo "a:1" [] "c:3:ONLINE:5" = [("c:3", ⟨"ONLINE", 5⟩)] := by decide
example : ingestPeerInfo "a:1" [] "a:1:ONLINE:5" = [] := by decide
example :
    (getPeersHandleReply ⟨"a:1", 0, [("b:2", ⟨"ONLINE", 1⟩)]⟩ "b:2" (.reply "")).1.peers =
      [("b:2", ⟨"OFFLINE", 1⟩)] := by decide
example :
    (processPeerListReply ⟨"a:1", 0, [("b:2", ⟨"OFFLINE", 1⟩)]⟩ "b:2"
        "b:2 9 PEER_LIST 2 c:3:ONLINE:5 d:4:OFFLINE:3\n").1.peers =
      [("b:2", ⟨"ONLINE", 1⟩), ("c:3", ⟨"ONLINE", 5⟩), ("d:4", ⟨"OFFLINE", 3⟩)] := by decide
example :
    (searchFilesHandleReply ⟨"a:1", 0, [("b:2", ⟨"OFFLINE", 1⟩)]⟩ [] "b:2"
        (.reply "b:2 9 LS_LIST 2 r.txt:10 s.txt:20\n")).2.1 =
      [("r.txt", 10, "b:2"), ("s.txt", 20, "b:2")] := by decide

/-! ### Claim theorems -/

/-- C3: for every local clock value L and every received message carrying
remote clock R, the receive-side update sets the local clock to exactly
max(L, R) + 1 — in both the case R ≤ L and the case R > L — and this
happens before any handler logic runs: `handle_client` equals `dispatch`
applied to the already-advanced state. -/
theorem handle_client_observes_before_dispatch (st : NodeState)
    (dir : List (String × List Nat)) (data origem : String) (r : Int)
    (msgType : String) (args : List String)
    (h : decodeHeader data = some (origem, r, msgType, args)) :
    handle_client st dir data =
      dispatch { st with global_clock := max st.global_clock r + 1 } dir origem r msgType args ∧
    observe st.global_clock r = max st.global_clock r + 1 ∧
    (r ≤ st.global_clock → observe st.global_clock r = st.global_clock + 1) ∧
    (st.global_clock < r → observe st.global_clock r = r + 1) := by
  refine ⟨by simp [handle_client, h, observe], rfl, ?_, ?_⟩
  · intro hr
    simp [observe, max_eq_left hr]
  · intro hr
    simp [observe, max_eq_right (le_of_lt hr)]

/-- Witness for C3 at a concrete received message, covering both the
R > L case (remote clock 7 against local clock 3) and, through the
stated implications, the formula in each regime. -/
theorem handle_client_observes_before_dispatch_witness :
    handle_client ⟨"a:1", 3, []⟩ [] "b:2 7 HELLO" =
      dispatch { NodeState.mk "a:1" 3 [] with global_clock := max 3 7 + 1 } [] "b:2" 7 "HELLO" [] ∧
    observe 3 7 = max 3 7 + 1 ∧
    ((7 : Int) ≤ 3 → observe 3 7 = 3 + 1) ∧
    ((3 : Int) < 7 → observe 3 7 = 7 + 1) :=
  handle_client_observes_before_dispatch ⟨"a:1", 3, []⟩ [] "b:2 7 HELLO" "b:2" 7 "HELLO" []
    (by decide)

/-- C8: for every decoded GET_PEERS request from origin O, the PEER_LIST
reply is built from the full registry snapshot with O's entry filtered
out and stamped with the ticked clock, and handling the request leaves
every registry entry (O's included) exactly as it was. -/
theorem get_peers_frame (st : NodeState) (dir : List (String × List Nat))
    (data origem : String) (r : Int) (args : List String)
    (h : decodeHeader data = some (origem, r, "GET_PEERS", args)) :
    (handle_client st dir data).state.peers = st.peers ∧
    (∀ q, dictGet (handle_client st dir data).state.peers q = dictGet st.peers q) ∧
    (handle_client st dir data).reply =
      some (peerListReply st.server_id (max st.global_clock r + 1 + 1)
        ((st.peers.filter (fun p => p.1 ≠ origem)).map peerEntryStr)) := by
  have hd : handle_client st dir data =
      dispatch { st with global_clock := observe st.global_clock r } dir origem r "GET_PEERS" args := by
    simp [handle_client, h]
  rw [hd]
  simp [dispatch, observe, update_clock]

/-- Witness for C8 at a concrete request and registry. -/
theorem get_peers_frame_witness :
    (handle_client ⟨"a:1", 0, [("c:3", ⟨"OFFLINE", 4⟩)]⟩ [] "b:2 7 GET_PEERS").state.peers =
      (NodeState.mk "a:1" 0 [("c:3", ⟨"OFFLINE", 4⟩)]).peers ∧
    (∀ q, dictGet (handle_client ⟨"a:1", 0, [("c:3", ⟨"OFFLINE", 4⟩)]⟩ [] "b:2 7 GET_PEERS").state.peers q =
      dictGet (NodeState.mk "a:1" 0 [("c:3", ⟨"OFFLINE", 4⟩)]).peers q) ∧
    (handle_client ⟨"a:1", 0, [("c:3", ⟨"OFFLINE", 4⟩)]⟩ [] "b:2 7 GET_PEERS").reply =
      some (peerListReply "a:1" (max 0 7 + 1 + 1)
        (((NodeState.mk "a:1" 0 [("c:3", ⟨"OFFLINE", 4⟩)]).peers.filter
          (fun p => p.1 ≠ "b:2")).map peerEntryStr)) :=
  get_peers_frame ⟨"a:1", 0, [("c:3", ⟨"OFFLINE", 4⟩)]⟩ [] "b:2 7 GET_PEERS" "b:2" 7 []
    (by decide)

/-- C9: an inbound message that fails to decode — fewer than 3 header
fields, a non-integer clock, or an unknown message type — produces no
reply and leaves the Peer Registry untouched; `handle_client` being a
total function returning normally models the outer `try/except/finally`
that closes the connection and keeps the server alive. -/
theorem decode_failure_dropped (st : NodeState) (dir : List (String × List Nat))
    (data : String) :
    ((pySplit (pyStrip data)).length < 3 → handle_client st dir data = ⟨st, none, []⟩) ∧
    (∀ o c t args, pySplit (pyStrip data) = o :: c :: t :: args → pyInt c = none →
      handle_client st dir data = ⟨st, none, []⟩) ∧
    (∀ origem r t args, decodeHeader data = some (origem, r, t, args) →
      t ∉ (["HELLO", "GET_PEERS", "BYE", "LS", "DL"] : List String) →
      (handle_client st dir data).reply = none ∧
      (handle_client st dir data).state.peers = st.peers) := by
  refine ⟨?_, ?_, ?_⟩
  · intro hlen
    have hdec : decodeHeader data = none := by
      unfold decodeHeader
      match hp : pySplit (pyStrip data) with
      | [] => rfl
      | [_] => rfl
      | [_, _] => rfl
      | _ :: _ :: _ :: _ =>
        rw [hp] at hlen
        simp only [List.length_cons] at hlen
        omega
    simp [handle_client, hdec]
  · intro o c t args hp hint
    have hdec : decodeHeader data = none := by
      unfold decodeHeader
      rw [hp]
      simp [hint]
    simp [handle_client, hdec]
  · intro origem r t args h ht
    simp only [List.mem_cons, List.not_mem_nil, or_false, not_or] at ht
    obtain ⟨h1, h2, h3, h4, h5⟩ := ht
    have hd : handle_client st dir data =
        dispatch { st with global_clock := observe st.global_clock r } dir origem r t args := by
      simp [handle_client, h]
    rw [hd]
    simp [dispatch, h1, h2, h3, h4, h5]

/-- Witness for C9 at three concrete undecodable messages: two header
fields only, a non-integer clock, and the unknown type PEER_LIST. -/
theorem decode_failure_dropped_witness :
    handle_client ⟨"a:1", 5, [("b:2", ⟨"ONLINE", 1⟩)]⟩ [] "b:2 3" =
      ⟨⟨"a:1", 5, [("b:2", ⟨"ONLINE", 1⟩)]⟩, none, []⟩ ∧
    handle_client ⟨"a:1", 5, [("b:2", ⟨"ONLINE", 1⟩)]⟩ [] "b:2 xx HELLO" =
      ⟨⟨"a:1", 5, [("b:2", ⟨"ONLINE", 1⟩)]⟩, none, []⟩ ∧
    (handle_client ⟨"a:1", 5, [("b:2", ⟨"ONLINE", 1⟩)]⟩ [] "b:2 3 PEER_LIST 0").reply = none ∧
    (handle_client ⟨"a:1", 5, [("b:2", ⟨"ONLINE", 1⟩)]⟩ [] "b:2 3 PEER_LIST 0").state.peers =
      (NodeState.mk "a:1" 5 [("b:2", ⟨"ONLINE", 1⟩)]).peers := by
  refine ⟨?_, ?_, ?_⟩
  · exact (decode_failure_dropped ⟨"a:1", 5, [("b:2", ⟨"ONLINE", 1⟩)]⟩ [] "b:2 3").1 (by decide)
  · exact (decode_failure_dropped ⟨"a:1", 5, [("b:2", ⟨"ONLINE", 1⟩)]⟩ [] "b:2 xx HELLO").2.1
      "b:2" "xx" "HELLO" [] (by decide) (by decide)
  · exact (decode_failure_dropped ⟨"a:1", 5, [("b:2", ⟨"ONLINE", 1⟩)]⟩ [] "b:2 3 PEER_LIST 0").2.2
      "b:2" 3 "PEER_LIST" ["0"] (by decide) (by decide)

/-- C5: ingesting a gossip entry (id, status, clock): if the id is
absent it is inserted exactly as given; if present with a differing
(status, clock) pair both fields are overwritten with the given values,
with no ordering check on the clock; if present with an identical pair
the dictionary is left exactly as it was; entries for other ids are
never touched. -/
theorem merge_last_writer_wins (peers : List (String × PeerRecord))
    (pid status : String) (clock : Int) :
    (dictGet peers pid = none →
      dictGet (merge peers pid status clock) pid = some ⟨status, clock⟩) ∧
    (∀ rec, dictGet peers pid = some rec → rec ≠ ⟨status, clock⟩ →
      dictGet (merge peers pid status clock) pid = some ⟨status, clock⟩) ∧
    (dictGet peers pid = some ⟨status, clock⟩ → merge peers pid status clock = peers) ∧
    (∀ q, q ≠ pid → dictGet (merge peers pid status clock) q = dictGet peers q) := by
  refine ⟨?_, ?_, ?_, ?_⟩
  · intro h
    simp [merge, h, dictGet_dictSet_self]
  · intro rec h hne
    have hcond : rec.status ≠ status ∨ rec.clock ≠ clock := by
      by_contra hc
      push_neg at hc
      exact hne (by cases rec; simp_all)
    simp [merge, h, hcond, dictGet_dictSet_self]
  · intro h
    simp [merge, h]
  · intro q hq
    unfold merge
    match h : dictGet peers pid with
    | some rec =>
      by_cases hcond : rec.status ≠ status ∨ rec.clock ≠ clock
      · simp [hcond, dictGet_dictSet_ne _ _ _ _ hq]
      · simp [hcond]
    | none => simp [dictGet_dictSet_ne _ _ _ _ hq]

/-- Witness for C5: a fresh id is inserted, a differing pair is
overwritten even though the incoming clock is lower (no ordering check),
an identical pair is a no-op, and other entries are untouched. -/
theorem merge_last_writer_wins_witness :
    dictGet (merge [("c:3", ⟨"ONLINE", 9⟩)] "d:4" "OFFLINE" 3) "d:4" = some ⟨"OFFLINE", 3⟩ ∧
    dictGet (merge [("c:3", ⟨"ONLINE", 9⟩)] "c:3" "OFFLINE" 2) "c:3" = some ⟨"OFFLINE", 2⟩ ∧
    merge [("c:3", ⟨"ONLINE", 9⟩)] "c:3" "ONLINE" 9 = [("c:3", ⟨"ONLINE", 9⟩)] ∧
    dictGet (merge [("c:3", ⟨"ONLINE", 9⟩)] "c:3" "OFFLINE" 2) "b:2" =
      dictGet [("c:3", ⟨"ONLINE", 9⟩)] "b:2" := by
  refine ⟨?_, ?_, ?_, ?_⟩
  · exact (merge_last_writer_wins [("c:3", ⟨"ONLINE", 9⟩)] "d:4" "OFFLINE" 3).1 (by decide)
  · exact (merge_last_writer_wins [("c:3", ⟨"ONLINE", 9⟩)] "c:3" "OFFLINE" 2).2.1
      ⟨"ONLINE", 9⟩ (by decide) (by decide)
  · exact (merge_last_writer_wins [("c:3", ⟨"ONLINE", 9⟩)] "c:3" "ONLINE" 9).2.2.1 (by decide)
  · exact (merge_last_writer_wins [("c:3", ⟨"ONLINE", 9⟩)] "c:3" "OFFLINE" 2).2.2.2 "b:2"
      (by decide)

/-- C6 fails as stated: a second HELLO carrying the same clock leaves the
record unchanged but the handler prints its "Atualizando peer ... ONLINE"
line unconditionally, so a duplicate log signalling a (non-)change is
produced.  Concretely, after HELLO from b:2 with clock 5, a second
identical HELLO leaves the registry unchanged yet logs again. -/
theorem hello_duplicate_log_counterexample :
    (dispatch (dispatch ⟨"a:1", 0, []⟩ [] "b:2" 5 "HELLO" []).state [] "b:2" 5 "HELLO" []).state.peers =
      (dispatch ⟨"a:1", 0, []⟩ [] "b:2" 5 "HELLO" []).state.peers ∧
    (dispatch (dispatch ⟨"a:1", 0, []⟩ [] "b:2" 5 "HELLO" []).state [] "b:2" 5 "HELLO" []).logs ≠
      [] := by
  decide

/-- C6 amended: calling the BYE handler (mark_offline) on an already
OFFLINE peer leaves the state unchanged and produces no log;
mark_offline never modifies any stored clock; and the HELLO handler
(upsert_online) applied again with the same clock leaves the record
unchanged — but emits its update log on every call, including the no-op
repeat. -/
theorem registry_idempotence_amended (st : NodeState) (dir : List (String × List Nat))
    (origem : String) (r : Int) (args : List String) :
    (∀ rec, dictGet st.peers origem = some rec → rec.status = "OFFLINE" →
      dispatch st dir origem r "BYE" args = ⟨st, none, []⟩) ∧
    (∀ q recq, dictGet st.peers q = some recq →
      ∃ recq', dictGet (dispatch st dir origem r "BYE" args).state.peers q = some recq' ∧
        recq'.clock = recq.clock) ∧
    (∀ rec, dictGet st.peers origem = some rec → rec.status = "ONLINE" → rec.clock = r →
      (dispatch st dir origem r "HELLO" args).state = st ∧
      (dispatch st dir origem r "HELLO" args).logs = [.helloUpdate origem r]) := by
  refine ⟨?_, ?_, ?_⟩
  · intro rec h hoff
    simp [dispatch, h, hoff]
  · intro q recq h
    cases ho : dictGet st.peers origem with
    | none =>
      simp [dispatch, ho]
      exact ⟨recq, h, rfl⟩
    | some rec =>
      by_cases hoff : rec.status = "OFFLINE"
      · simp [dispatch, ho, hoff]
        exact ⟨recq, h, rfl⟩
      · simp [dispatch, ho, hoff]
        by_cases hq : q = origem
        · subst hq
          rw [h] at ho
          cases ho
          refine ⟨⟨"OFFLINE", recq.clock⟩, ?_, rfl⟩
          simp [dictGet_dictSet_self]
        · refine ⟨recq, ?_, rfl⟩
          rw [dictGet_dictSet_ne _ _ _ _ hq]
          exact h
  · intro rec h hon hclk
    have hrec : (⟨"ONLINE", r⟩ : PeerRecord) = rec := by
      cases rec
      simp_all
    constructor
    · simp only [dispatch, reduceIte, h, hon, ne_eq, not_true_eq_false, ite_false,
        ite_true]
      rw [hrec, dictSet_eq_of_get _ _ _ h]
    · simp [dispatch, h, hon]

/-- Witness for C6 amended: BYE on an already-OFFLINE peer is a no-op
with no log; BYE leaves the clock of an ONLINE peer it marks OFFLINE
untouched; a repeated same-clock HELLO keeps the state and logs again. -/
theorem registry_idempotence_amended_witness :
    dispatch ⟨"a:1", 0, [("b:2", ⟨"OFFLINE", 4⟩)]⟩ [] "b:2" 9 "BYE" [] =
      ⟨⟨"a:1", 0, [("b:2", ⟨"OFFLINE", 4⟩)]⟩, none, []⟩ ∧
    (∃ recq', dictGet (dispatch ⟨"a:1", 0, [("c:3", ⟨"ONLINE", 4⟩)]⟩ [] "c:3" 9 "BYE" []).state.peers
        "c:3" = some recq' ∧ recq'.clock = (PeerRecord.mk "ONLINE" 4).clock) ∧
    (dispatch ⟨"a:1", 0, [("b:2", ⟨"ONLINE", 5⟩)]⟩ [] "b:2" 5 "HELLO" []).state =
      ⟨"a:1", 0, [("b:2", ⟨"ONLINE", 5⟩)]⟩ ∧
    (dispatch ⟨"a:1", 0, [("b:2", ⟨"ONLINE", 5⟩)]⟩ [] "b:2" 5 "HELLO" []).logs =
      [.helloUpdate "b:2" 5] := by
  refine ⟨?_, ?_, ?_⟩
  · exact (registry_idempotence_amended ⟨"a:1", 0, [("b:2", ⟨"OFFLINE", 4⟩)]⟩ [] "b:2" 9 []).1
      ⟨"OFFLINE", 4⟩ (by decide) rfl
  · exact (registry_idempotence_amended ⟨"a:1", 0, [("c:3", ⟨"ONLINE", 4⟩)]⟩ [] "c:3" 9 []).2.1
      "c:3" ⟨"ONLINE", 4⟩ (by decide)
  · exact (registry_idempotence_amended ⟨"a:1", 0, [("b:2", ⟨"ONLINE", 5⟩)]⟩ [] "b:2" 5 []).2.2
      ⟨"ONLINE", 5⟩ (by decide) rfl rfl

/-- Preservation of the no-self-peer invariant by a single gossip or
neighbor-file operation. -/
theorem applyRegOp_no_self (sid : String) (peers : List (String × PeerRecord))
    (op : RegOp) (h : dictGet peers sid = none) :
    dictGet (applyRegOp sid peers op) sid = none := by
  cases op with
  | gossip info =>
    show dictGet (ingestPeerInfo sid peers info) sid = none
    unfold ingestPeerInfo
    split
    · split
      · split
        · exact h
        · rename_i hpid
          rw [(merge_last_writer_wins peers _ _ _).2.2.2 sid (fun heq => hpid heq.symm)]
          exact h
      · exact h
    · exact h
  | neighborLine line =>
    show dictGet (loadNeighborLine sid peers line) sid = none
    unfold loadNeighborLine
    split
    · rename_i hline
      split
      · rw [dictGet_dictSet_ne _ _ _ _ (Ne.symm hline.2)]
        exact h
      · exact h
    · exact h

/-- C7: the node's own identity is never inserted into the registry: a
PEER_LIST entry whose id equals server_id is skipped, a neighbor-file
line equal to server_id is skipped, and so any sequence of gossip merges
and neighbor-file loads starting from a registry without the own id
leaves the registry without it. -/
theorem no_self_peer_invariant (sid : String) (ops : List RegOp)
    (peers : List (String × PeerRecord)) (h : dictGet peers sid = none) :
    dictGet (ops.foldl (applyRegOp sid) peers) sid = none := by
  induction ops generalizing peers with
  | nil => exact h
  | cons op rest ih =>
    exact ih (applyRegOp sid peers op) (applyRegOp_no_self sid peers op h)

/-- Witness for C7: starting from an empty registry, a gossip entry for
the node itself, a third-party gossip entry, the node's own line in the
neighbor file and a fresh neighbor line never put a:1 into a:1's own
registry. -/
theorem no_self_peer_invariant_witness :
    dictGet (([RegOp.gossip "a:1:ONLINE:5", RegOp.gossip "c:3:ONLINE:2",
        RegOp.neighborLine "a:1", RegOp.neighborLine "d:4"].foldl
      (applyRegOp "a:1") []) ) "a:1" = none :=
  no_self_peer_invariant "a:1"
    [RegOp.gossip "a:1:ONLINE:5", RegOp.gossip "c:3:ONLINE:2",
      RegOp.neighborLine "a:1", RegOp.neighborLine "d:4"] [] (by decide)

/-- C2: a first-attempt connection refusal makes `send_message` return
failure after exactly one attempt with no retry and no clock tick; when
every attempt times out with a budget of `max_retries = 2` (an oracle
list of length two), exactly 2 connection attempts are made before
failure is returned; and any other I/O error consumes exactly one
attempt of the same budget and the loop goes on. -/
theorem send_message_retry_policy (e : Bool) :
    (∀ outs, send_message (.refused :: outs) e = (.fail, 1, [])) ∧
    (∀ o1 o2, (o1 = AttemptOutcome.timeoutAtConnect ∨ o1 = AttemptOutcome.timeoutAfterSend) →
      (o2 = AttemptOutcome.timeoutAtConnect ∨ o2 = AttemptOutcome.timeoutAfterSend) →
      (send_message [o1, o2] e).1 = .fail ∧ (send_message [o1, o2] e).2.1 = 2) ∧
    (∀ o outs n evs, (o = AttemptOutcome.failAtConnect ∨ o = AttemptOutcome.failDuringSend) →
      ∃ evs', sendGo e (o :: outs) n evs = sendGo e outs (n + 1) (evs ++ evs')) := by
  refine ⟨fun outs => rfl, ?_, ?_⟩
  · rintro o1 o2 (rfl | rfl) (rfl | rfl) <;> exact ⟨rfl, rfl⟩
  · rintro o outs n evs (rfl | rfl)
    · exact ⟨[], by simp [sendGo]⟩
    · exact ⟨[.tick], rfl⟩

/-- Witness for C2: refusal on the first of two budgeted attempts gives
one attempt; two connect timeouts give two attempts and failure; an
arbitrary exception on the first attempt continues the loop with one
attempt consumed. -/
theorem send_message_retry_policy_witness :
    send_message [.refused, .ok "x"] true = (.fail, 1, []) ∧
    ((send_message [.timeoutAtConnect, .timeoutAtConnect] true).1 = .fail ∧
      (send_message [.timeoutAtConnect, .timeoutAtConnect] true).2.1 = 2) ∧
    (∃ evs', sendGo true [AttemptOutcome.failAtConnect, .timeoutAtConnect] 0 [] =
      sendGo true [.timeoutAtConnect] (0 + 1) ([] ++ evs')) :=
  ⟨(send_message_retry_policy true).1 [.ok "x"],
    (send_message_retry_policy true).2.1 .timeoutAtConnect .timeoutAtConnect
      (Or.inl rfl) (Or.inl rfl),
    (send_message_retry_policy true).2.2 .failAtConnect [.timeoutAtConnect] 0 []
      (Or.inl rfl)⟩

/-- C4 fails as stated: in the GET_PEERS fan-out, the loop body calls
`update_clock()` once for a stamp it never uses and `send_message` ticks
again before writing, so a successfully delivered GET_PEERS costs two
clock ticks for one outbound message. -/
theorem get_peers_double_tick_counterexample :
    (getPeersSendPhase [.ok "r"]).2.2.count Event.tick = 2 ∧
    (getPeersSendPhase [.ok "r"]).2.2.count Event.msgSent = 1 ∧
    ¬ ((getPeersSendPhase [.ok "r"]).2.2.count Event.tick =
        (getPeersSendPhase [.ok "r"]).2.2.count Event.msgSent) := by
  decide

/-- C4 amended: `send_message` itself ticks exactly once per message it
sends — one tick, one write, for any immediately-successful attempt —
which covers the HELLO probe, BYE fan-out, LS fan-out and DL flows that
call it directly; but the GET_PEERS fan-out's loop body performs one
additional tick per peer (an unused stamp), so it advances the clock
twice per successfully contacted peer. -/
theorem tick_once_per_send_amended :
    (∀ r outs e, (send_message (AttemptOutcome.ok r :: outs) e).2.2 = [.tick, .msgSent]) ∧
    (∀ r outs, (getPeersSendPhase (AttemptOutcome.ok r :: outs)).2.2 =
      [.tick, .tick, .msgSent]) :=
  ⟨fun _ _ _ => rfl, fun _ _ => rfl⟩

theorem markOfflineStep_get (st : NodeState) (p : String) (rec : PeerRecord)
    (h : dictGet st.peers p = some rec) :
    dictGet (markOfflineStep st p).1.peers p = some ⟨"OFFLINE", rec.clock⟩ := by
  unfold markOfflineStep
  rw [h]
  by_cases hoff : rec.status = "OFFLINE"
  · simp only [hoff, ne_eq, not_true_eq_false, ite_false]
    rw [h]
    cases rec
    simp_all
  · simp [hoff, dictGet_dictSet_self]

/-- C10: a peer that accepts the connection and closes it without
sending makes `recv` return empty, so `send_message` with
`expect_reply=True` returns the empty string — not the `None` failure
indicator and not an exception — after one attempt and one completed
write; and both the GET_PEERS fan-out and the LS fan-out treat that
empty string as falsy and mark the contacted peer OFFLINE. -/
theorem empty_reply_marks_offline :
    (send_message [.ok ""] true = (.reply "", 1, [.tick, .msgSent]) ∧
      SendRet.reply "" ≠ SendRet.fail) ∧
    (∀ st p rec, dictGet st.peers p = some rec →
      dictGet (getPeersHandleReply st p (.reply "")).1.peers p =
        some ⟨"OFFLINE", rec.clock⟩) ∧
    (∀ st acc p rec, dictGet st.peers p = some rec →
      dictGet (searchFilesHandleReply st acc p (.reply "")).1.peers p =
        some ⟨"OFFLINE", rec.clock⟩) := by
  refine ⟨⟨rfl, by decide⟩, ?_, ?_⟩
  · intro st p rec h
    simp only [getPeersHandleReply, reduceIte]
    exact markOfflineStep_get st p rec h
  · intro st acc p rec h
    simp only [searchFilesHandleReply, reduceIte]
    exact markOfflineStep_get st p rec h

/-- Witness for C10: a registry holding b:2 as ONLINE marks it OFFLINE
(clock kept) in both fan-outs after an empty-string reply. -/
theorem empty_reply_marks_offline_witness :
    (send_message [.ok ""] true = (.reply "", 1, [.tick, .msgSent]) ∧
      SendRet.reply "" ≠ SendRet.fail) ∧
    dictGet (getPeersHandleReply ⟨"a:1", 0, [("b:2", ⟨"ONLINE", 7⟩)]⟩ "b:2"
        (.reply "")).1.peers "b:2" = some ⟨"OFFLINE", (PeerRecord.mk "ONLINE" 7).clock⟩ ∧
    dictGet (searchFilesHandleReply ⟨"a:1", 0, [("b:2", ⟨"ONLINE", 7⟩)]⟩ [] "b:2"
        (.reply "")).1.peers "b:2" = some ⟨"OFFLINE", (PeerRecord.mk "ONLINE" 7).clock⟩ :=
  ⟨empty_reply_marks_offline.1,
    empty_reply_marks_offline.2.1 ⟨"a:1", 0, [("b:2", ⟨"ONLINE", 7⟩)]⟩ "b:2"
      ⟨"ONLINE", 7⟩ (by decide),
    empty_reply_marks_offline.2.2 ⟨"a:1", 0, [("b:2", ⟨"ONLINE", 7⟩)]⟩ [] "b:2"
      ⟨"ONLINE", 7⟩ (by decide)⟩

/-- C1 fails on the code: the DL sender puts the base64 content at token
index 6 of the FILE reply (after `FILE <name> 0 0`), but the downloader
reads `parts[5]` — the literal "0" length field — whose base64 decode
always raises, so nothing is ever written to the shared directory: for
an empty file, a single-byte file and a file containing all 256 byte
values, the download step writes nothing instead of the original
bytes. -/
theorem dl_download_writes_nothing :
    downloadFromReply (dlFileReply "127.0.0.1:9001" 8 "a.bin" []) = none ∧
    downloadFromReply (dlFileReply "127.0.0.1:9001" 8 "b.bin" [104]) = none ∧
    downloadFromReply (dlFileReply "127.0.0.1:9001" 8 "c.bin" (List.range 256)) = none := by
  refine ⟨by decide, by decide, by decide⟩

set_option maxRecDepth 4096 in
/-- Reading the payload from the seventh token instead would make the
same replies round-trip for the single-byte and all-256-byte files
(the empty file still fails, because its payload token vanishes when
the reply is split on whitespace). -/
theorem dl_download_intended_roundtrip :
    downloadFromReplyIntended (dlFileReply "127.0.0.1:9001" 8 "b.bin" [104]) =
      some ("b.bin", [104]) ∧
    downloadFromReplyIntended (dlFileReply "127.0.0.1:9001" 8 "c.bin" (List.range 256)) =
      some ("c.bin", List.range 256) ∧
    downloadFromReplyIntended (dlFileReply "127.0.0.1:9001" 8 "a.bin" []) = none := by
  refine ⟨by decide, by decide, by decide⟩

end Eachare
